import Mathlib

/-!
Verification development for the github-issue-previewer core
(src/github_issue_previewer/cli.py).

The Python source is shallowly embedded: pure fragments become Lean
functions on `String` / `List`; the outcomes of calls into external
libraries (mdformat, markdownify, jinja2) are passed in as explicit
parameters; fallible control flow is `Except`.  Machine details that the
claims do not touch (file descriptors, sockets) are not modelled.
-/

namespace GIPrev

/-! ## Ordered-list numbering reconciliation

Embedding of `hybrid_markdown_formatter` (cli.py lines 128-165).

Python regexes are embedded as explicit character scanners:
`matchNumbered` embeds `re.match(r"^(\s*)(\d+)\.\s+", line)` and
`matchGeneric` embeds `re.match(r"^(\s*)1\.\s+", line)` together with the
effect of `re.sub(r"^(\s*)1\.\s+", prefix, line)`.  The whitespace class
is modelled as `Char.isWhitespace`, matching the characters that actually
occur in line content.
-/

def isSpaceChar (c : Char) : Bool :=
  c.isWhitespace

def digitsToNat (ds : List Char) : Nat :=
  ds.foldl (fun a c => a * 10 + (c.toNat - 48)) 0

/-- Does the line match `^(\s*)(\d+)\.\s+`?  Returns the integer of the
marker when it does (step 2 of `hybrid_markdown_formatter`). -/
def matchNumbered (line : String) : Option Nat :=
  let cs := line.toList
  let rest := cs.dropWhile isSpaceChar
  let ds := rest.takeWhile Char.isDigit
  let rest2 := rest.dropWhile Char.isDigit
  if ds.isEmpty then none
  else
    match rest2 with
    | '.' :: r3 => if (r3.takeWhile isSpaceChar).isEmpty then none else some (digitsToNat ds)
    | _ => none

/-- Does the line match the generic first-item marker `^(\s*)1\.\s+`?
Returns `(leading indentation, content after the marker and its
whitespace run)`, the two pieces `re.sub` keeps and rewrites. -/
def matchGeneric (line : String) : Option (String × String) :=
  let cs := line.toList
  let ws := cs.takeWhile isSpaceChar
  let rest := cs.dropWhile isSpaceChar
  match rest with
  | '1' :: '.' :: r =>
    if (r.takeWhile isSpaceChar).isEmpty then none
    else some (String.mk ws, String.mk (r.dropWhile isSpaceChar))
  | _ => none

/-- Step 2 of `hybrid_markdown_formatter`: the integers of every original
line carrying an explicit numbered-list marker, in document order
(the `.values()` of the `original_numbers` dict). -/
def collectNumbers (lines : List String) : List Nat :=
  lines.filterMap matchNumbered

/-- Step 3 of `hybrid_markdown_formatter`: walk the pretty-printed lines;
on each generic `1. ` marker take the next queued number and rewrite the
line as `indent ++ number ++ ". " ++ rest`; when the queue is exhausted
(`StopIteration`) the line is kept unchanged. -/
def reinsertNumbers : List Nat → List String → List String
  | _, [] => []
  | nums, line :: rest =>
    match matchGeneric line with
    | none => line :: reinsertNumbers nums rest
    | some (ind, aft) =>
      match nums with
      | [] => line :: reinsertNumbers [] rest
      | n :: ns => (ind ++ toString n ++ ". " ++ aft) :: reinsertNumbers ns rest

def splitLinesAux : List Char → List Char → List String
  | acc, [] => [String.mk acc.reverse]
  | acc, '\n' :: cs => String.mk acc.reverse :: splitLinesAux [] cs
  | acc, c :: cs => splitLinesAux (c :: acc) cs

/-- Python `str.splitlines` for LF-separated text: split on newline, with
the trailing empty piece produced by a final newline dropped. -/
def splitLines (s : String) : List String :=
  let parts := splitLinesAux [] s.toList
  if parts.getLast? = some "" then parts.dropLast else parts

/-- Python `"\n".join(lines)`. -/
def joinLines : List String → String
  | [] => ""
  | [l] => l
  | l :: ls => l ++ "\n" ++ joinLines ls

/-- Python `str.strip()`: remove leading and trailing whitespace. -/
def stripStr (s : String) : String :=
  String.mk (((s.toList.dropWhile isSpaceChar).reverse.dropWhile isSpaceChar).reverse)

/-- `hybrid_markdown_formatter(original_md)`.  The outcome of the external
`mdformat.text` call is passed in as `mdfmt`: `Except.error` embeds the
`except Exception` branch that returns the input untouched, `Except.ok`
carries the pretty-printed text. -/
def hybridMarkdownFormatter (mdfmt : Except String String) (originalMd : String) : String :=
  match mdfmt with
  | Except.error _ => originalMd
  | Except.ok formatted =>
    let nums := collectNumbers (splitLines originalMd)
    let newLines := reinsertNumbers nums (splitLines formatted)
    stripStr (joinLines newLines) ++ "\n"

/-- Number of generic-marker lines strictly before position `i`. -/
def genericCountBefore (lines : List String) (i : Nat) : Nat :=
  (lines.take i).countP (fun l => (matchGeneric l).isSome)

/-! ## Pruning of preview-only elements

Embedding of the `re.sub` call in `Handler.do_POST` (cli.py lines
216-224), the removal of every occurrence of

  `<(div|section|p|e|button|span)[^>]*id="[^"]*-not-exported"[^>]*>.*?</\1>`

with flags `DOTALL | IGNORECASE`.  The fixed pattern is embedded as an
explicit backtracking matcher with the exact semantics of the Python
engine on this pattern: alternatives are tried left to right, the greedy
pieces backtrack from their longest extent, the lazy `.*?` stops at the
earliest backreferenced closing tag, and `re.sub` removes leftmost
non-overlapping matches while scanning forward one character at a time.
-/

/-- Case-insensitive literal match: consume `pat` from the front of `cs`. -/
def stripCI : List Char → List Char → Option (List Char)
  | [], cs => some cs
  | _ :: _, [] => none
  | p :: ps, c :: cs => if c.toLower = p.toLower then stripCI ps cs else none

def tagNames : List (List Char) :=
  ["div".toList, "section".toList, "p".toList, "e".toList, "button".toList, "span".toList]

/-- The alternation `(div|section|p|e|button|span)`, tried in pattern
order; returns the group (as the pattern tag, equivalent under the
case-insensitive backreference) and the rest of the input. -/
def matchTagName (cs : List Char) : Option (List Char × List Char) :=
  tagNames.findSome? (fun t => (stripCI t cs).map (fun r => (t, r)))

def ciEqList : List Char → List Char → Bool
  | [], [] => true
  | a :: as, b :: bs => (a.toLower == b.toLower) && ciEqList as bs
  | _, _ => false

/-- `</\1>` at the head of the input (case-insensitive backreference). -/
def stripCloseTag (tag : List Char) (cs : List Char) : Option (List Char) :=
  match cs with
  | '<' :: '/' :: r =>
    match stripCI tag r with
    | some ('>' :: r2) => some r2
    | _ => none
  | _ => none

/-- `.*?</\1>` with DOTALL: find the earliest closing tag, return the rest
of the input after it. -/
def findClose (tag : List Char) : List Char → Option (List Char)
  | [] => none
  | c :: cs =>
    match stripCloseTag tag (c :: cs) with
    | some r => some r
    | none => findClose tag cs

/-- `id="[^"]*-not-exported"[^>]*>.*?</\1>` starting at `cs2.drop q`: the
position `q` is one backtracking choice of the first `[^>]*`.  After the
literal `id="`, the greedy `[^"]*` forces the first quote to be the
closing one, so the id value must end in `-not-exported`; the second
`[^>]*>` ends at the first `>`; then the lazy close search runs. -/
def matchAfterTag (tag : List Char) (cs2 : List Char) (q : Nat) : Option (List Char) :=
  match stripCI "id=\"".toList (cs2.drop q) with
  | none => none
  | some cs3 =>
    match cs3.findIdx? (fun c => c == '"') with
    | none => none
    | some j =>
      if 13 ≤ j && ciEqList ((cs3.take j).drop (j - 13)) "-not-exported".toList then
        let cs4 := cs3.drop (j + 1)
        match cs4.findIdx? (fun c => c == '>') with
        | none => none
        | some k => findClose tag (cs4.drop (k + 1))
      else none

/-- Backtracking of the greedy first `[^>]*`: try the split point `q` from
largest to smallest, taking the first for which the whole remainder of the
pattern succeeds. -/
def matchAfterTagFrom (tag : List Char) (cs2 : List Char) : Nat → Option (List Char)
  | 0 => matchAfterTag tag cs2 0
  | q + 1 =>
    match matchAfterTag tag cs2 (q + 1) with
    | some r => some r
    | none => matchAfterTagFrom tag cs2 q

/-- Attempt a full-pattern match at the head of `cs`; on success return
the input remaining after the match. -/
def matchMarkedElement (cs : List Char) : Option (List Char) :=
  match cs with
  | '<' :: cs1 =>
    match matchTagName cs1 with
    | some (tag, cs2) =>
      matchAfterTagFrom tag cs2 ((cs2.takeWhile (fun c => c != '>')).length)
    | none => none
  | _ => none

/-- The `re.sub(pattern, "", html, DOTALL | IGNORECASE)` scan: leftmost
non-overlapping matches are deleted; everything else is copied.  The fuel
is the input length, which bounds the number of steps since every step
consumes at least one character. -/
def pruneScan : Nat → List Char → List Char
  | 0, cs => cs
  | _ + 1, [] => []
  | fuel + 1, c :: cs =>
    match matchMarkedElement (c :: cs) with
    | some rest => pruneScan fuel rest
    | none => c :: pruneScan fuel cs

/-- The pruning step of the export pipeline (cli.py lines 216-224). -/
def pruneNotExported (s : String) : String :=
  String.mk (pruneScan s.toList.length s.toList)

/-! ## Title extraction and the export pipeline

Embedding of the rest of `Handler.do_POST` (cli.py lines 227-282).  The
parsed snapshot is a DOM tree; `findInList`, `nodeText` and
`extractFromList` embed the BeautifulSoup operations used by the code
(`soup.find(id=...)` in pre-order, `tag.get_text(strip=True)`,
`tag.extract()`).  The external markdownify conversion `md(str(soup),
heading_style="ATX")` is a parameter `convert`, and the external
`mdformat.text` call is a parameter `mdfmt`, so the theorems quantify
over every behaviour of those libraries.
-/

inductive HNode where
  | text : String → HNode
  | elem : String → Option String → List HNode → HNode
deriving Repr

/-- `soup.find(id=tid)`: first element in pre-order document order whose
id attribute is `tid`. -/
def findInList (tid : String) : List HNode → Option HNode
  | [] => none
  | HNode.text _ :: rest => findInList tid rest
  | HNode.elem t i cs :: rest =>
    if i = some tid then some (HNode.elem t i cs)
    else
      match findInList tid cs with
      | some x => some x
      | none => findInList tid rest

/-- Concatenation of the stripped descendant strings of a node list:
`get_text(strip=True)` with the default empty separator. -/
def getTextList : List HNode → String
  | [] => ""
  | HNode.text s :: rest => stripStr s ++ getTextList rest
  | HNode.elem _ _ cs :: rest => getTextList cs ++ getTextList rest

/-- `tag.get_text(strip=True)`. -/
def nodeText : HNode → String
  | HNode.text s => stripStr s
  | HNode.elem _ _ cs => getTextList cs

/-- `tag.extract()` on the first pre-order element with id `tid`: remove
that element together with its whole subtree; the Bool reports whether an
element was removed. -/
def extractFromList (tid : String) : List HNode → List HNode × Bool
  | [] => ([], false)
  | HNode.text s :: rest =>
    let r := extractFromList tid rest
    (HNode.text s :: r.1, r.2)
  | HNode.elem t i cs :: rest =>
    if i = some tid then (rest, true)
    else
      match extractFromList tid cs with
      | (cs2, true) => (HNode.elem t i cs2 :: rest, true)
      | (_, false) =>
        let r := extractFromList tid rest
        (HNode.elem t i cs :: r.1, r.2)

/-- Steps 4-6 of `do_POST` (cli.py lines 227-242): find the reserved title
element, capture its stripped text, extract it, convert the rest, and
prepend the heading when the captured text is truthy.

When no title element is found, `title_text` is never assigned, and the
later `if title_text:` raises `UnboundLocalError`; the error is the one
the outer `except Exception` handler receives.  (In the source the
conversion runs before that line raises; its discarded result is not
modelled.) -/
def buildMarkdown (convert : List HNode → String) (soup : List HNode) : Except String String :=
  match findInList "issue-title-exported" soup with
  | none =>
    Except.error "cannot access local variable title_text where it is not associated with a value"
  | some el =>
    let titleText := stripStr (nodeText el)
    let soup2 := (extractFromList "issue-title-exported" soup).1
    let markdownBody := stripStr (convert soup2)
    if titleText = "" then Except.ok markdownBody
    else Except.ok ("# " ++ titleText ++ "\n\n" ++ markdownBody)

/-- Python `Path(p).name`: the final path component. -/
def baseName (p : String) : String :=
  String.mk ((p.toList.reverse.takeWhile (fun c => c != '/')).reverse)

/-- Python `Path(p).with_suffix(".exported.md")` on a simple file name:
drop the last dot-suffix of the final component, append `.exported.md`. -/
def withSuffixExportedMd (p : String) : String :=
  let revUpTo := p.toList.reverse.dropWhile (fun c => c != '.' && c != '/')
  (match revUpTo with
   | '.' :: rest => String.mk rest.reverse
   | _ => p) ++ ".exported.md"

/-- Output-path resolution (cli.py lines 244-249): the configured
`--output-path` wins, else a path derived from the YAML file name, else
nothing. -/
def resolveOutputFile (outputPath : Option String) (yamlFile : Option String) : Option String :=
  match outputPath with
  | some p => some p
  | none =>
    match yamlFile with
    | some y => some (withSuffixExportedMd y)
    | none => none

structure ExportResponse where
  success : Bool
  message : String
  path : Option String
deriving DecidableEq, Repr

/-- The observable outcome of one `/export` POST: HTTP status, JSON
response body, and the file write the handler performed, if any. -/
structure ExportOutcome where
  status : Nat
  response : ExportResponse
  written : Option (String × String)
deriving DecidableEq, Repr

/-- The export pipeline from the parsed snapshot on (cli.py lines
227-282): title extraction and conversion, output resolution, hybrid
formatting, persistence, and the response; any raised error is caught by
the outer handler and reported as a 500 with a structured body. -/
def exportAfterPrune (convert : List HNode → String)
    (mdfmt : String → Except String String)
    (outputPath yamlFile : Option String) (soup : List HNode) : ExportOutcome :=
  match buildMarkdown convert soup with
  | Except.error e =>
    { status := 500
      response := { success := false, message := "Error: " ++ e, path := none }
      written := none }
  | Except.ok markdownContent =>
    match resolveOutputFile outputPath yamlFile with
    | some outputFile =>
      let formattedMd := hybridMarkdownFormatter (mdfmt markdownContent) markdownContent
      { status := 200
        response :=
          { success := true
            message := "Exported to " ++ baseName outputFile
            path := some outputFile }
        written := some (outputFile, formattedMd) }
    | none =>
      { status := 200
        response :=
          { success := false
            message := "No valid output path or YAML file available"
            path := none }
        written := none }

/-! ## Document renderer

Embedding of `generate_html` (cli.py lines 63-125).  The parsed YAML
document is a Python dict, embedded as an insertion-ordered association
list with the dict semantics the code relies on: `dictGet` is `get`,
`dictSet` is item assignment / one key of `update` (replace in place when
the key exists, append otherwise).  The external `MarkdownIt().render`
and the jinja2 `Template(...).render` are parameters, and `time.time()`
is the parameter `now`, so the theorems quantify over all of them.
-/

inductive YamlVal where
  | str : String → YamlVal
  | strList : List String → YamlVal
  | arr : List YamlVal → YamlVal
  | dict : List (String × YamlVal) → YamlVal
  | null : YamlVal
deriving Repr

abbrev YDict := List (String × YamlVal)

def dictGet (d : YDict) (k : String) : Option YamlVal :=
  match d with
  | [] => none
  | (k2, v) :: rest => if k2 = k then some v else dictGet rest k

def dictSet (d : YDict) (k : String) (v : YamlVal) : YDict :=
  match d with
  | [] => [(k, v)]
  | (k2, v2) :: rest => if k2 = k then (k2, v) :: rest else (k2, v2) :: dictSet rest k v

/-- Python truthiness of the values the renderer tests with `if desc:` /
`if data["description"]:`. -/
def yTruthy : YamlVal → Bool
  | YamlVal.str s => s != ""
  | YamlVal.strList xs => !xs.isEmpty
  | YamlVal.arr xs => !xs.isEmpty
  | YamlVal.dict fs => !fs.isEmpty
  | YamlVal.null => false

/-- `item.get("type") == "markdown"`. -/
def isMarkdownType (fields : YDict) : Bool :=
  match dictGet fields "type" with
  | some (YamlVal.str t) => t == "markdown"
  | _ => false

/-- The per-item markdown processing of `generate_html` (cli.py lines
94-104): attach `html` for markdown-typed items with a `value`, and
`description_html` for any item whose `attributes` hold a truthy
`description`. -/
def processItem (mdRender : String → String) (item : YamlVal) : YamlVal :=
  match item with
  | YamlVal.dict fields =>
    let fields1 :=
      if isMarkdownType fields then
        match dictGet fields "attributes" with
        | some (YamlVal.dict attrs) =>
          match dictGet attrs "value" with
          | some (YamlVal.str v) =>
            dictSet fields "attributes" (YamlVal.dict (dictSet attrs "html" (YamlVal.str (mdRender v))))
          | _ => fields
        | _ => fields
      else fields
    let fields2 :=
      match dictGet fields1 "attributes" with
      | some (YamlVal.dict attrs) =>
        match dictGet attrs "description" with
        | some dsc =>
          if yTruthy dsc then
            match dsc with
            | YamlVal.str s =>
              dictSet fields1 "attributes"
                (YamlVal.dict (dictSet attrs "description_html" (YamlVal.str (mdRender s))))
            | _ => fields1
          else fields1
        | none => fields1
      | _ => fields1
    YamlVal.dict fields2
  | other => other

/-- The `data.update({...})` defaults of `generate_html` (cli.py lines
112-120): each of the five keys is set to `data.get(key, default)`. -/
def applyDefaults (d : YDict) : YDict :=
  let d1 := dictSet d "assignees" ((dictGet d "assignees").getD (YamlVal.strList []))
  let d2 := dictSet d1 "labels" ((dictGet d1 "labels").getD (YamlVal.strList []))
  let d3 := dictSet d2 "projects" ((dictGet d2 "projects").getD (YamlVal.strList []))
  let d4 := dictSet d3 "milestone" ((dictGet d3 "milestone").getD (YamlVal.str ""))
  dictSet d4 "title" ((dictGet d4 "title").getD (YamlVal.str ""))

/-- The body-processing block of `generate_html` (cli.py lines 94-104):
when the document has a `body` sequence, every item is processed. -/
def attachBodyHtml (mdRender : String → String) (data : YDict) : YDict :=
  match dictGet data "body" with
  | some (YamlVal.arr items) => dictSet data "body" (YamlVal.arr (items.map (processItem mdRender)))
  | _ => data

/-- The top-level description block of `generate_html` (cli.py lines
106-110): `description_html` is the rendered description when it is
present and truthy, else the empty string. -/
def attachDescriptionHtml (mdRender : String → String) (data : YDict) : YDict :=
  match dictGet data "description" with
  | some (YamlVal.str s) =>
    if s ≠ "" then dictSet data "description_html" (YamlVal.str (mdRender s))
    else dictSet data "description_html" (YamlVal.str "")
  | _ => dictSet data "description_html" (YamlVal.str "")

/-- The markdown-attachment phase of `generate_html` (cli.py lines
94-110): body items processed, top-level `description_html` attached. -/
def attachDerived (mdRender : String → String) (data : YDict) : YDict :=
  attachDescriptionHtml mdRender (attachBodyHtml mdRender data)

/-- The whole data-preparation phase of `generate_html` (cli.py lines
94-120): body items processed, top-level `description_html` attached,
defaults applied. -/
def processData (mdRender : String → String) (data : YDict) : YDict :=
  applyDefaults (attachDerived mdRender data)

structure RenderOutput where
  html : String
  token : String
deriving DecidableEq, Repr

/-- `generate_html` observable output (cli.py lines 63-125): the HTML text
written to the artifact file and the refresh token written to the reload
file.  `tplRender` is the jinja2 `Template(html_template).render` bound
to the stylesheet name, `mdRender` is `MarkdownIt().render`, and `now` is
the `time.time()` sample: the token is its string form, and nothing else
depends on it. -/
def generateHtml (tplRender : String → String → YDict → String)
    (mdRender : String → String)
    (htmlTemplate cssName : String) (data : YDict) (now : Nat) : RenderOutput :=
  { html := tplRender htmlTemplate cssName (processData mdRender data)
    token := toString now }

/-! ## Refresh loop

Embedding of the polling loop of `preview` (cli.py lines 347-363).  A
tick observes the current modification time and, when it differs from
the last observed one, re-renders.  The `generate_html` call is wrapped
in no handler other than `except KeyboardInterrupt`, so a render failure
(malformed YAML) propagates and the loop terminates; the artifact and
token files written by the previous successful render are not touched,
because `generate_html` raises while loading the YAML, before its
writes. -/

structure LoopState where
  lastMtime : Nat
  artifactHtml : Option String
  token : Option String
deriving DecidableEq, Repr

inductive TickResult where
  | continued : LoopState → TickResult
  | crashed : LoopState → TickResult
deriving DecidableEq, Repr

def TickResult.isContinued : TickResult → Bool
  | TickResult.continued _ => true
  | TickResult.crashed _ => false

/-- One iteration of the `while True` polling loop (cli.py lines
349-356).  `renderResult` is the outcome of the `generate_html` call the
tick would make: `ok` carries the artifact and token it writes, `error`
is a raised exception (for which the loop has no handler). -/
def refreshTick (renderResult : Except String RenderOutput) (mtime : Nat)
    (st : LoopState) : TickResult :=
  if mtime = st.lastMtime then TickResult.continued st
  else
    match renderResult with
    | Except.ok out =>
      TickResult.continued
        { lastMtime := mtime, artifactHtml := some out.html, token := some out.token }
    | Except.error _ => TickResult.crashed st

/-! ## Concrete snapshots and inputs used by witnesses -/

/-- A snapshot whose title element holds the text `My Title`. -/
def titledSnapshot : List HNode :=
  [HNode.elem "h1" (some "issue-title-exported") [HNode.text "My Title"],
   HNode.elem "p" none [HNode.text "Body"]]

/-- `titledSnapshot` after the title element is extracted. -/
def titledSnapshotBody : List HNode :=
  [HNode.elem "p" none [HNode.text "Body"]]

/-- A snapshot with no element carrying the reserved title id. -/
def untitledSnapshot : List HNode :=
  [HNode.elem "p" none [HNode.text "hello"]]

/-- A snapshot whose title element holds only whitespace text. -/
def blankTitleSnapshot : List HNode :=
  [HNode.elem "span" (some "issue-title-exported") [HNode.text "   "],
   HNode.elem "p" none [HNode.text "B"]]

/-- A concrete stand-in for the external markdownify conversion, used
only to instantiate universally quantified converters in witnesses. -/
def sampleConvert : List HNode → String :=
  getTextList

/-- The original three-item list of the round-trip property. -/
def originalThreeItems : String :=
  "1. Alpha\n2. Beta\n3. Gamma\n"

/-- The pretty-printed form of the three-item list as the spec describes
the external mdformat pass: every ordered-list marker normalized to the
generic first-item marker. -/
def mdformatThreeItems : String :=
  "1. Alpha\n1. Beta\n1. Gamma\n"

/-! ## Helper lemmas -/

theorem matchGeneric_empty : matchGeneric "" = none := rfl

theorem reinsertNumbers_length (lines : List String) :
    ∀ nums : List Nat, (reinsertNumbers nums lines).length = lines.length := by
  induction lines with
  | nil => intro nums; rfl
  | cons l ls ih =>
    intro nums
    cases hm : matchGeneric l with
    | none => simp [reinsertNumbers, hm, ih]
    | some pr =>
      obtain ⟨ind, aft⟩ := pr
      cases nums with
      | nil => simp [reinsertNumbers, hm, ih]
      | cons n ns => simp [reinsertNumbers, hm, ih]

/-- Positional characterization of the reinsertion scan: the line at
position `i` of the output is the line at position `i` of the input,
unless that line carries the generic marker and the queue still holds a
number once the generic lines before `i` have consumed theirs, in which
case the marker is rewritten with that number. -/
theorem reinsertNumbers_getD (lines : List String) :
    ∀ (nums : List Nat) (i : Nat),
      (reinsertNumbers nums lines).getD i "" =
        match matchGeneric (lines.getD i ""), nums.drop (genericCountBefore lines i) with
        | some (ind, aft), n :: _ => ind ++ toString n ++ ". " ++ aft
        | some _, [] => lines.getD i ""
        | none, _ => lines.getD i "" := by
  induction lines with
  | nil =>
    intro nums i
    simp [reinsertNumbers, genericCountBefore, matchGeneric_empty]
  | cons l ls ih =>
    intro nums i
    cases i with
    | zero =>
      cases hm : matchGeneric l with
      | none => simp [reinsertNumbers, hm, genericCountBefore]
      | some pr =>
        obtain ⟨ind, aft⟩ := pr
        cases nums with
        | nil => simp [reinsertNumbers, hm, genericCountBefore]
        | cons n ns => simp [reinsertNumbers, hm, genericCountBefore]
    | succ i =>
      cases hm : matchGeneric l with
      | none =>
        have hc : genericCountBefore (l :: ls) (i + 1) = genericCountBefore ls i := by
          simp [genericCountBefore, List.countP_cons, hm]
        simp only [reinsertNumbers, hm, hc, List.getD_cons_succ]
        simpa using ih nums i
      | some pr =>
        obtain ⟨ind, aft⟩ := pr
        have hc : genericCountBefore (l :: ls) (i + 1) = genericCountBefore ls i + 1 := by
          simp [genericCountBefore, List.countP_cons, hm]
        cases nums with
        | nil =>
          simp only [reinsertNumbers, hm, hc, List.getD_cons_succ, List.drop_nil]
          simpa using ih [] i
        | cons n ns =>
          simp only [reinsertNumbers, hm, hc, List.getD_cons_succ, List.drop_succ_cons]
          simpa using ih ns i

theorem reinsertNumbers_nil_queue (lines : List String) :
    reinsertNumbers [] lines = lines := by
  induction lines with
  | nil => rfl
  | cons l ls ih =>
    cases hm : matchGeneric l with
    | none => simp [reinsertNumbers, hm, ih]
    | some pr => obtain ⟨ind, aft⟩ := pr; simp [reinsertNumbers, hm, ih]

theorem dictGet_dictSet_self (d : YDict) (k : String) (v : YamlVal) :
    dictGet (dictSet d k v) k = some v := by
  induction d with
  | nil => simp [dictGet, dictSet]
  | cons kv rest ih =>
    obtain ⟨k2, v2⟩ := kv
    by_cases h : k2 = k
    · simp [dictGet, dictSet, h]
    · simp [dictGet, dictSet, h, ih]

theorem dictGet_dictSet_ne (d : YDict) (k k2 : String) (v : YamlVal) (h : k ≠ k2) :
    dictGet (dictSet d k v) k2 = dictGet d k2 := by
  induction d with
  | nil => simp [dictGet, dictSet, h]
  | cons kv rest ih =>
    obtain ⟨k3, v3⟩ := kv
    by_cases h3 : k3 = k
    · subst h3
      simp [dictGet, dictSet, h]
    · simp [dictGet, dictSet, h3, ih]

theorem dictGet_attachBodyHtml (m : String → String) (d : YDict) (k : String)
    (h1 : k ≠ "body") :
    dictGet (attachBodyHtml m d) k = dictGet d k := by
  have hb : "body" ≠ k := Ne.symm h1
  unfold attachBodyHtml
  split <;> simp [dictGet_dictSet_ne _ _ _ _ hb]

theorem dictGet_attachDescriptionHtml (m : String → String) (d : YDict) (k : String)
    (h2 : k ≠ "description_html") :
    dictGet (attachDescriptionHtml m d) k = dictGet d k := by
  have hd : "description_html" ≠ k := Ne.symm h2
  unfold attachDescriptionHtml
  split
  · split <;> simp [dictGet_dictSet_ne _ _ _ _ hd]
  · simp [dictGet_dictSet_ne _ _ _ _ hd]

/-- The markdown-attachment phase touches only the `body` and
`description_html` keys. -/
theorem dictGet_attachDerived (m : String → String) (d : YDict) (k : String)
    (h1 : k ≠ "body") (h2 : k ≠ "description_html") :
    dictGet (attachDerived m d) k = dictGet d k := by
  unfold attachDerived
  rw [dictGet_attachDescriptionHtml m _ k h2, dictGet_attachBodyHtml m d k h1]

/-! ## Claim theorems -/

/-- C1: numbering reconciliation.  The reconciler collects the integers
of the original numbered lines in document order and rewrites the
pretty-printed lines in order: a line without the generic marker is left
unchanged; the line at position `i` carrying the generic marker receives
the next collected integer (the one remaining after the generic lines
before `i` have consumed theirs), with its leading indentation preserved;
and the three-item round trip yields the markers 1., 2., 3. in order,
never 1. three times. -/
theorem c1_numbering_reconciliation :
    (∀ (nums : List Nat) (lines : List String) (i : Nat),
        matchGeneric (lines.getD i "") = none →
        (reinsertNumbers nums lines).getD i "" = lines.getD i "")
  ∧ (∀ (nums : List Nat) (lines : List String) (i : Nat) (ind aft : String)
        (n : Nat) (ns : List Nat),
        matchGeneric (lines.getD i "") = some (ind, aft) →
        nums.drop (genericCountBefore lines i) = n :: ns →
        (reinsertNumbers nums lines).getD i "" = ind ++ toString n ++ ". " ++ aft)
  ∧ hybridMarkdownFormatter (Except.ok mdformatThreeItems) originalThreeItems
      = "1. Alpha\n2. Beta\n3. Gamma\n" := by
  refine ⟨?_, ?_, by decide⟩
  · intro nums lines i h
    have hch := reinsertNumbers_getD lines nums i
    rw [h] at hch
    simpa using hch
  · intro nums lines i ind aft n ns h hq
    have hch := reinsertNumbers_getD lines nums i
    rw [h, hq] at hch
    simpa using hch

theorem c1_numbering_reconciliation_witness :
    (reinsertNumbers [7] ["1. x"]).getD 0 "" = "" ++ toString 7 ++ ". " ++ "x" :=
  c1_numbering_reconciliation.2.1 [7] ["1. x"] 0 "" "x" 7 [] (by decide) (by decide)

/-- C2: the claim says pruning removes every marked element together with
its entire subtree, leaving no orphaned descendants.  The regex scan in
the code does not: on a marked container holding a nested same-tag
element, the lazy match stops at the first closing tag, so the trailing
content of the marked container (here `tail-secret`) and its closing tag
are left in the output.  The second conjunct shows the intended behaviour
on a non-nested input: the marked element vanishes and the unmarked
same-tag element survives. -/
theorem c2_pruning_leaves_orphans :
    pruneNotExported "<div id=\"hide-not-exported\">secret<div>inner</div>tail-secret</div>"
        = "tail-secret</div>"
  ∧ pruneNotExported "<div id=\"x-not-exported\">A</div><div id=\"keep\">B</div>"
        = "<div id=\"keep\">B</div>" :=
  ⟨by decide, by decide⟩

/-- C3 counterexample: the claim says a failed re-render on a changed
modification timestamp leaves the loop polling.  On a concrete changed
tick whose render fails, the tick does not continue: the exception
propagates out of the polling loop. -/
theorem c3_refresh_crash_counterexample :
    (refreshTick (Except.error "mapping values are not allowed here") 2
        { lastMtime := 1, artifactHtml := some "<html>old</html>",
          token := some "1700000000.0" }).isContinued = false := by
  decide

/-- C3 amended: when a tick sees a changed modification timestamp and the
re-render raises, the loop crashes (the `while True` body has no handler
for render exceptions), leaving the previously written artifact and
refresh token unchanged in the loop state. -/
theorem c3_refresh_crash (e : String) (mtime : Nat) (st : LoopState)
    (h : mtime ≠ st.lastMtime) :
    refreshTick (Except.error e) mtime st = TickResult.crashed st := by
  simp [refreshTick, h]

theorem c3_refresh_crash_witness :
    refreshTick (Except.error "bad yaml") 2
        { lastMtime := 1, artifactHtml := some "<html>old</html>", token := some "100.0" }
      = TickResult.crashed
          { lastMtime := 1, artifactHtml := some "<html>old</html>", token := some "100.0" } :=
  c3_refresh_crash "bad yaml" 2
    { lastMtime := 1, artifactHtml := some "<html>old</html>", token := some "100.0" }
    (by decide)

/-- C5: queue exhaustion degrades instead of failing.  With an empty
queue the scan returns every line unchanged; in general a generic-marker
line whose queue is already exhausted is left unchanged; and a concrete
run with one number and three generic lines numbers only the earliest
line. -/
theorem c5_queue_exhaustion :
    (∀ lines : List String, reinsertNumbers [] lines = lines)
  ∧ (∀ (nums : List Nat) (lines : List String) (i : Nat),
        (matchGeneric (lines.getD i "")).isSome = true →
        nums.drop (genericCountBefore lines i) = [] →
        (reinsertNumbers nums lines).getD i "" = lines.getD i "")
  ∧ reinsertNumbers [5] ["1. a", "1. b", "1. c"] = ["5. a", "1. b", "1. c"] := by
  refine ⟨reinsertNumbers_nil_queue, ?_, by decide⟩
  intro nums lines i hs hq
  obtain ⟨pr, h⟩ := Option.isSome_iff_exists.mp hs
  obtain ⟨ind, aft⟩ := pr
  have hch := reinsertNumbers_getD lines nums i
  rw [h, hq] at hch
  simpa using hch

theorem c5_queue_exhaustion_witness :
    (reinsertNumbers [] ["1. a"]).getD 0 "" = ["1. a"].getD 0 "" :=
  c5_queue_exhaustion.2.1 [] ["1. a"] 0 (by decide) (by decide)

/-- C4: title extraction.  When the snapshot holds the reserved title
element with non-blank stripped text, the export prepends a top-level
ATX heading and a blank line, and the body is converted from the tree
with that element extracted.  When no title element is present, however,
the pipeline does not complete normally: the handler reports a 500 error
(the `title_text` local is never assigned) and writes nothing — this
second conjunct evaluates the code at the failing input. -/
theorem c4_title_extraction :
    (∀ (conv : List HNode → String) (soup : List HNode) (el : HNode),
        findInList "issue-title-exported" soup = some el →
        stripStr (nodeText el) ≠ "" →
        buildMarkdown conv soup =
          Except.ok ("# " ++ stripStr (nodeText el) ++ "\n\n" ++
            stripStr (conv (extractFromList "issue-title-exported" soup).1)))
  ∧ (∀ (conv : List HNode → String) (mdfmt : String → Except String String)
        (outputPath yamlFile : Option String),
        (exportAfterPrune conv mdfmt outputPath yamlFile untitledSnapshot).status = 500 ∧
        (exportAfterPrune conv mdfmt outputPath yamlFile untitledSnapshot).written = none) := by
  constructor
  · intro conv soup el h hne
    simp [buildMarkdown, h, hne]
  · intro conv mdfmt outputPath yamlFile
    constructor <;> simp [exportAfterPrune, buildMarkdown, untitledSnapshot, findInList]

theorem c4_title_extraction_witness :
    buildMarkdown sampleConvert titledSnapshot =
      Except.ok ("# " ++
        stripStr (nodeText (HNode.elem "h1" (some "issue-title-exported") [HNode.text "My Title"])) ++
        "\n\n" ++
        stripStr (sampleConvert (extractFromList "issue-title-exported" titledSnapshot).1)) :=
  c4_title_extraction.1 sampleConvert titledSnapshot
    (HNode.elem "h1" (some "issue-title-exported") [HNode.text "My Title"])
    (by simp [titledSnapshot, findInList])
    (by simp [nodeText, getTextList, stripStr, isSpaceChar])

/-- C6: pretty-printer failure fallback.  When the mdformat call fails,
`hybrid_markdown_formatter` returns its input untouched (no numbering
substitution), and the export pipeline still writes the unreconciled
converted text and reports success with status 200. -/
theorem c6_prettyprinter_fallback :
    (∀ (e originalMd : String),
        hybridMarkdownFormatter (Except.error e) originalMd = originalMd)
  ∧ (∀ (conv : List HNode → String) (e : String),
        (exportAfterPrune conv (fun _ => Except.error e) (some "out.md") none
            titledSnapshot).written =
          some ("out.md", "# My Title\n\n" ++ stripStr (conv titledSnapshotBody)) ∧
        (exportAfterPrune conv (fun _ => Except.error e) (some "out.md") none
            titledSnapshot).response.success = true ∧
        (exportAfterPrune conv (fun _ => Except.error e) (some "out.md") none
            titledSnapshot).status = 200) := by
  constructor
  · intro e originalMd
    rfl
  · intro conv e
    refine ⟨?_, ?_, ?_⟩ <;>
      simp +decide [exportAfterPrune, buildMarkdown, titledSnapshot, titledSnapshotBody,
        findInList, extractFromList, nodeText, getTextList, stripStr, isSpaceChar,
        resolveOutputFile, hybridMarkdownFormatter]

/-- C7: renderer defaults.  After the data-preparation phase of
`generate_html`, each of the five optional keys holds its original value
when it was present and the documented default when it was absent:
empty sequences for assignees, labels and projects, empty strings for
milestone and title. -/
theorem c7_renderer_defaults :
    ∀ (mdRender : String → String) (data : YDict),
      dictGet (processData mdRender data) "assignees"
          = some ((dictGet data "assignees").getD (YamlVal.strList []))
      ∧ dictGet (processData mdRender data) "labels"
          = some ((dictGet data "labels").getD (YamlVal.strList []))
      ∧ dictGet (processData mdRender data) "projects"
          = some ((dictGet data "projects").getD (YamlVal.strList []))
      ∧ dictGet (processData mdRender data) "milestone"
          = some ((dictGet data "milestone").getD (YamlVal.str ""))
      ∧ dictGet (processData mdRender data) "title"
          = some ((dictGet data "title").getD (YamlVal.str "")) := by
  intro m d
  have ha := dictGet_attachDerived m d "assignees" (by decide) (by decide)
  have hl := dictGet_attachDerived m d "labels" (by decide) (by decide)
  have hp := dictGet_attachDerived m d "projects" (by decide) (by decide)
  have hm := dictGet_attachDerived m d "milestone" (by decide) (by decide)
  have ht := dictGet_attachDerived m d "title" (by decide) (by decide)
  refine ⟨?_, ?_, ?_, ?_, ?_⟩ <;>
    simp +decide [processData, applyDefaults, dictGet_dictSet_self, dictGet_dictSet_ne,
      ha, hl, hp, hm, ht]

/-- C8: missing-destination export.  With no configured output path and
no known YAML path, a snapshot that reaches output resolution (title
element present) produces no write and a structured success=false
response with status 200.  But the claim ranges over every export
request: a snapshot without the title element instead fails with the
unassigned `title_text` error, a 500 status, success=false, and no
write — the first conjunct evaluates the code at that failing input. -/
theorem c8_missing_destination :
    (∀ (conv : List HNode → String) (mdfmt : String → Except String String),
        (exportAfterPrune conv mdfmt none none untitledSnapshot).status = 500 ∧
        (exportAfterPrune conv mdfmt none none untitledSnapshot).response.success = false ∧
        (exportAfterPrune conv mdfmt none none untitledSnapshot).written = none)
  ∧ (∀ (conv : List HNode → String) (mdfmt : String → Except String String),
        exportAfterPrune conv mdfmt none none titledSnapshot =
          { status := 200
            response :=
              { success := false
                message := "No valid output path or YAML file available"
                path := none }
            written := none }) := by
  constructor
  · intro conv mdfmt
    refine ⟨?_, ?_, ?_⟩ <;>
      simp [exportAfterPrune, buildMarkdown, untitledSnapshot, findInList]
  · intro conv mdfmt
    simp +decide [exportAfterPrune, buildMarkdown, titledSnapshot, findInList,
      extractFromList, nodeText, getTextList, stripStr, isSpaceChar, resolveOutputFile]

/-- C9: render determinism.  The HTML produced by `generate_html` is a
function of the document data, the template, the stylesheet name and the
external renderers alone; the `time.time()` sample flows only into the
refresh token, so two runs on unchanged inputs produce identical HTML
and may differ only in the token. -/
theorem c9_render_determinism :
    ∀ (tplRender : String → String → YDict → String) (mdRender : String → String)
      (htmlTemplate cssName : String) (data : YDict) (t1 t2 : Nat),
      (generateHtml tplRender mdRender htmlTemplate cssName data t1).html =
        (generateHtml tplRender mdRender htmlTemplate cssName data t2).html
      ∧ (generateHtml tplRender mdRender htmlTemplate cssName data t1).token = toString t1 :=
  fun _ _ _ _ _ _ _ => ⟨rfl, rfl⟩

/-- C10: blank title.  When the reserved title element is present but its
stripped text is empty, no heading is prepended: the export is the
converted body alone, and the element is still extracted from the tree
before conversion. -/
theorem c10_blank_title :
    ∀ (conv : List HNode → String) (soup : List HNode) (el : HNode),
      findInList "issue-title-exported" soup = some el →
      stripStr (nodeText el) = "" →
      buildMarkdown conv soup =
        Except.ok (stripStr (conv (extractFromList "issue-title-exported" soup).1)) := by
  intro conv soup el h he
  simp [buildMarkdown, h, he]

theorem c10_blank_title_witness :
    buildMarkdown sampleConvert blankTitleSnapshot =
      Except.ok (stripStr (sampleConvert (extractFromList "issue-title-exported" blankTitleSnapshot).1)) :=
  c10_blank_title sampleConvert blankTitleSnapshot
    (HNode.elem "span" (some "issue-title-exported") [HNode.text "   "])
    (by simp [blankTitleSnapshot, findInList])
    (by simp [nodeText, getTextList, stripStr, isSpaceChar])

end GIPrev
